import Mathlib

/-!
Verification of the status-monitoring service in `app.py` (ShantanuK86/monitor_srv).

The development shallowly embeds the status-normalization layer of the
application: the six-value `Status` enumeration, the eight per-provider
`get_status` extractors, the bounded latency history (`Service.add_history`),
the aggregation path (`check_single_service` and the route-level sorting), and
one iteration of the background scheduler loop.

Modelling conventions:
  - An HTTP fetch (plus any decoding done inside the provider's `try` block)
    is a value of `Except Unit payload`: `Except.error ()` stands for any
    exception raised during fetch/parse (network error, timeout, malformed
    JSON/HTML), which the Python code catches with a bare `except` returning
    `Status.unavailable`.
  - HTML documents are abstracted to exactly the features the code inspects:
    raw body text for substring checks, the class-attribute list of the first
    node with class `status`/`index` for the StatusPage plugin, and the
    stringified first `.section` node for Azure.
  - JSON payloads are abstracted to the fields the code reads, with `Option`
    for possibly-missing fields (`dict.get`).
-/

/-- The `Status` enum of `app.py` (lines 25-31): the closed six-value
severity enumeration. -/
inductive Status where
  | ok
  | maintenance
  | minor
  | major
  | critical
  | unavailable
deriving DecidableEq, Repr

/-- Whether `needle` occurs as a contiguous sublist of `hay`. -/
def isSubList (needle : List Char) : List Char → Bool
  | [] => needle.isEmpty
  | c :: t => needle.isPrefixOf (c :: t) || isSubList needle t

/-- `needle in hay` for Python strings: substring containment. -/
def strContains (hay needle : String) : Bool :=
  isSubList needle.data hay.data

/-- Python `str.lower()`, character by character. -/
def strToLower (s : String) : String :=
  String.mk (s.data.map Char.toLower)

/-- Python `str.startswith(p)`. -/
def strStartsWith (s p : String) : Bool :=
  p.data.isPrefixOf s.data

/-- AWS body classification (`AWS.get_status`, lines 163-171), applied to the
successfully fetched body text. -/
def awsClassify (text : String) : Status :=
  if strContains text "Service is operating normally" || strContains text "status0.gif" then .ok
  else if strContains text "status1.gif" then .ok
  else if strContains text "status2.gif" then .minor
  else if strContains text "status3.gif" then .critical
  else .ok

/-- Google Cloud body classification (`GCloud.get_status`, lines 193-198):
both branches return `ok`; only a raised exception yields `unavailable`. -/
def gcloudClassify (text : String) : Status :=
  if strContains text "Available" || strContains text "No incidents" then .ok
  else .ok

/-- Docker body classification (`Docker.get_status`, lines 239-245). -/
def dockerClassify (text : String) : Status :=
  if strContains text "All Systems Operational" then .ok
  else if strContains text "Incident" then .major
  else .unavailable

/-- GitHub classification (`GitHub.get_status`, lines 204-215), applied to
`data.get('status', {}).get('indicator')` of the decoded JSON (`none` when
the field is missing). -/
def githubClassify (indicator : Option String) : Status :=
  if indicator = some "none" then .ok
  else if indicator = some "minor" then .minor
  else if indicator = some "major" then .major
  else if indicator = some "critical" then .critical
  else if indicator = some "maintenance" then .maintenance
  else .ok

/-- The HTML features `StatusPagePlugin.get_status` inspects: the class list
of `soup.find(class_=['status', 'index'])` (`none` when no such node exists;
a found node's missing class attribute is the empty list, matching
`attrs.get('class', [])`), and the raw body text. -/
structure HtmlPage where
  statusNode : Option (List String)
  text : String
deriving DecidableEq

/-- Shared Atlassian/Cloudflare classification (`StatusPagePlugin.get_status`,
lines 126-143), applied to the successfully fetched page. -/
def statusPageClassify (page : HtmlPage) : Status :=
  match page.statusNode with
  | none =>
      if strContains page.text "All Systems Operational" then .ok else .unavailable
  | some classes =>
      let status := classes.find? (fun x => strStartsWith x "status-")
      if status = some "status-none" then .ok
      else if status = some "status-critical" then .critical
      else if status = some "status-major" then .major
      else if status = some "status-minor" then .minor
      else if status = some "status-maintenance" then .maintenance
      else .unavailable

/-- The HTML features `Azure.get_status` inspects: the raw body text and
`str(soup.select_one('.section'))` (Python stringifies a missing node as
`"None"`, still a plain string to substring-check). -/
structure AzurePage where
  text : String
  sectionStr : String
deriving DecidableEq

/-- Azure classification (`Azure.get_status`, lines 177-187), applied to the
successfully fetched page. -/
def azureClassify (page : AzurePage) : Status :=
  let text := strToLower page.text
  if strContains text "fewer than 3" || strContains text "good" then .ok
  else if strContains page.sectionStr "health-warning" then .minor
  else if strContains page.sectionStr "health-error" then .critical
  else .ok

/-- One element of Slack's `active_incidents` list; `itype` is the raw
`type` field, `none` when missing (`incident.get('type', '')`). -/
structure SlackIncident where
  itype : Option String
deriving DecidableEq

/-- `incident.get('type', '').lower()` (line 229). -/
def SlackIncident.effType (i : SlackIncident) : String :=
  strToLower (i.itype.getD "")

/-- The fields `Slack.get_status` reads from the decoded JSON: the top-level
`status` (`none` when missing) and the `active_incidents` list (an absent
field defaults to `[]`, matching `data.get('active_incidents', [])`). -/
structure SlackData where
  status : Option String
  activeIncidents : List SlackIncident
deriving DecidableEq

/-- The `for incident in active_incidents` loop of `Slack.get_status`
(lines 228-232): the first incident typed `incident` returns `major`, the
first typed `maintenance` returns `maintenance`, and falling off the loop
returns `minor`. -/
def slackScan : List SlackIncident → Status
  | [] => .minor
  | i :: rest =>
      if i.effType = "incident" then .major
      else if i.effType = "maintenance" then .maintenance
      else slackScan rest

/-- Slack classification (`Slack.get_status`, lines 221-233), applied to the
successfully decoded JSON. -/
def slackClassify (d : SlackData) : Status :=
  if d.status = some "ok" then .ok
  else if d.activeIncidents.isEmpty then .ok
  else slackScan d.activeIncidents

/-- The closed provider set (`SERVICES`, line 247). -/
inductive Provider where
  | aws
  | gcloud
  | github
  | azure
  | atlassian
  | cloudflare
  | slack
  | docker
deriving DecidableEq, Repr

/-- The `name` class attribute of each service. -/
def Provider.name : Provider → String
  | .aws => "Amazon Web Services"
  | .gcloud => "Google Cloud"
  | .github => "GitHub"
  | .azure => "Microsoft Azure"
  | .atlassian => "Atlassian"
  | .cloudflare => "Cloudflare"
  | .slack => "Slack"
  | .docker => "Docker"

/-- The `status_url` class attribute of each service. -/
def Provider.statusUrl : Provider → String
  | .aws => "https://status.aws.amazon.com/"
  | .gcloud => "https://status.cloud.google.com/"
  | .github => "https://www.githubstatus.com/"
  | .azure => "https://azure.microsoft.com/en-us/status/"
  | .atlassian => "https://status.atlassian.com/"
  | .cloudflare => "https://www.cloudflarestatus.com/"
  | .slack => "https://status.slack.com/"
  | .docker => "https://status.docker.com/"

/-- `SERVICES = [AWS(), GCloud(), GitHub(), Azure(), Atlassian(), Cloudflare(),
Slack(), Docker()]` (line 247), in source order. -/
def SERVICES : List Provider :=
  [.aws, .gcloud, .github, .azure, .atlassian, .cloudflare, .slack, .docker]

/-- The decoded payload a provider's `get_status` works on, one shape per
extractor family. -/
inductive ProviderResponse where
  | htmlBody (text : String)
  | htmlPage (page : HtmlPage)
  | azurePage (page : AzurePage)
  | githubJson (indicator : Option String)
  | slackJson (d : SlackData)

/-- Dispatch of `get_status` over the provider set. `Except.error ()` is any
exception during fetch/decode, caught by the provider's `try`/`except` and
collapsed to `unavailable`; a payload of the wrong shape would also raise
inside the `try` block in Python, hence also yields `unavailable`. -/
def Provider.getStatus (p : Provider) (r : Except Unit ProviderResponse) : Status :=
  match r with
  | .error _ => .unavailable
  | .ok resp =>
      match p, resp with
      | .aws, .htmlBody t => awsClassify t
      | .gcloud, .htmlBody t => gcloudClassify t
      | .docker, .htmlBody t => dockerClassify t
      | .github, .githubJson ind => githubClassify ind
      | .azure, .azurePage pg => azureClassify pg
      | .atlassian, .htmlPage pg => statusPageClassify pg
      | .cloudflare, .htmlPage pg => statusPageClassify pg
      | .slack, .slackJson d => slackClassify d
      | _, _ => .unavailable

/-- The fields of the result dict built by `check_single_service`
(lines 271-278) that the claims are about: `name`, `url`, `status`. -/
structure CheckResult where
  name : String
  url : String
  status : Status
deriving DecidableEq, Repr

/-- `check_single_service` (lines 260-278), restricted to the fields above:
runs the provider's `get_status` on the fetch outcome and never drops the
provider (a failed check still yields a record, with `unavailable`). -/
def check_single_service (p : Provider) (r : Except Unit ProviderResponse) : CheckResult :=
  { name := p.name, url := p.statusUrl, status := p.getStatus r }

/-- The unsorted result collection of the routes (`index`, `monitoring`,
`generate_excel_file`, `get_report_text`): one `check_single_service` result
per configured service. `env` assigns each provider its fetch outcome for
this round. -/
def aggregate (env : Provider → Except Unit ProviderResponse) : List CheckResult :=
  SERVICES.map (fun p => check_single_service p (env p))

/-- The by-display-name order used by `results.sort(key=lambda x: x['name'])`
in `index` (line 342), `generate_excel_file` (line 286) and `get_report_text`
(line 399). -/
def nameLE (a b : CheckResult) : Prop :=
  a.name ≤ b.name

instance : DecidableRel nameLE :=
  fun a b => inferInstanceAs (Decidable (a.name ≤ b.name))

instance : IsTotal CheckResult nameLE :=
  ⟨fun a b => le_total a.name b.name⟩

instance : IsTrans CheckResult nameLE :=
  ⟨fun _ _ _ h1 h2 => le_trans h1 h2⟩

/-- The `sort_map` dict of the `monitoring` route (line 352). All six enum
values are keys, so the `.get` default `6` is never used. -/
def sort_map : Status → Nat
  | .critical => 0
  | .major => 1
  | .minor => 2
  | .unavailable => 3
  | .maintenance => 4
  | .ok => 5

/-- Python tuple-key order of `monitoring` (line 353): severity priority
first, then display name. -/
def monLE (a b : CheckResult) : Prop :=
  sort_map a.status < sort_map b.status ∨
    (sort_map a.status = sort_map b.status ∧ a.name ≤ b.name)

instance : DecidableRel monLE :=
  fun a b => inferInstanceAs (Decidable (_ ∨ _))

instance : IsTotal CheckResult monLE := by
  constructor
  intro a b
  rcases Nat.lt_trichotomy (sort_map a.status) (sort_map b.status) with h | h | h
  · exact Or.inl (Or.inl h)
  · rcases le_total a.name b.name with hn | hn
    · exact Or.inl (Or.inr ⟨h, hn⟩)
    · exact Or.inr (Or.inr ⟨h.symm, hn⟩)
  · exact Or.inr (Or.inl h)

instance : IsTrans CheckResult monLE := by
  constructor
  intro a b c h1 h2
  rcases h1 with h1 | ⟨e1, n1⟩
  · rcases h2 with h2 | ⟨e2, n2⟩
    · exact Or.inl (h1.trans h2)
    · exact Or.inl (e2 ▸ h1)
  · rcases h2 with h2 | ⟨e2, n2⟩
    · exact Or.inl (e1 ▸ h2)
    · exact Or.inr ⟨e1.trans e2, le_trans n1 n2⟩

/-- Result list of the `index` route (lines 335-343): aggregate, then sort by
display name. -/
def indexResults (env : Provider → Except Unit ProviderResponse) : List CheckResult :=
  List.insertionSort nameLE (aggregate env)

/-- Result list of the `monitoring` route (lines 345-353): aggregate, then
sort by `(sort_map[status], name)`. -/
def monitoringResults (env : Provider → Except Unit ProviderResponse) : List CheckResult :=
  List.insertionSort monLE (aggregate env)

/-- Result list of the export endpoints `generate_excel_file` (line 286) and
`get_report_text` (line 399): aggregate, then sort by display name. -/
def exportResults (env : Provider → Except Unit ProviderResponse) : List CheckResult :=
  List.insertionSort nameLE (aggregate env)

/-- `Service.add_history` (lines 39-43), acting on the history list: append
the new latency, then `pop(0)` once if the length exceeds 30. -/
def add_history (history : List Int) (latency : Int) : List Int :=
  if 30 < (history ++ [latency]).length then (history ++ [latency]).drop 1
  else history ++ [latency]

/-- The history produced by a finite sequence of `add_history` calls starting
from the empty history of `Service.__init__` (line 36). -/
def run_history (ls : List Int) : List Int :=
  ls.foldl add_history []

/-- `status.name.upper()` as used by the background scheduler (line 323). -/
def statusUpperName : Status → String
  | .ok => "OK"
  | .maintenance => "MAINTENANCE"
  | .minor => "MINOR"
  | .major => "MAJOR"
  | .critical => "CRITICAL"
  | .unavailable => "UNAVAILABLE"

/-- One snapshot of the daily log (line 319): a timestamp plus an association
list from service name to severity string, in `SERVICES` order. -/
structure Snapshot where
  timestamp : String
  services : List (String × String)
deriving DecidableEq, Repr

/-- The snapshot built by one pass of the scheduler's `for service in
SERVICES` loop (lines 319-325). `get_status` itself never raises (its body is
wrapped in `try`/`except`), so the `except` branch writing `"UNKNOWN"` never
runs; the entry is always `status.name.upper()`. -/
def make_snapshot (ts : String) (env : Provider → Except Unit ProviderResponse) : Snapshot :=
  { timestamp := ts,
    services := SERVICES.map (fun p => (p.name, statusUpperName (p.getStatus (env p)))) }

/-- One completed iteration of `background_scheduler` (lines 306-327) as a
transformation of the daily log: at the top of the loop the log is cleared
when `now.hour == 0 and now.minute < 15 and len(DAILY_LOG) > 90`; after the
sleep, exactly one snapshot is appended. `hour` and `minute` are the
wall-clock fields read at the top of the iteration. -/
def scheduler_iteration (hour minute : Nat) (log : List Snapshot) (snap : Snapshot) :
    List Snapshot :=
  let cleared := if hour = 0 ∧ minute < 15 ∧ 90 < log.length then [] else log
  cleared ++ [snap]

/-! ## Helper lemmas -/

/-- `add_history` on a history within the bound: append the sample and drop
the oldest entry exactly when the bound would be exceeded. -/
theorem add_history_eq (h : List Int) (l : Int) (hb : h.length ≤ 30) :
    add_history h l = (h ++ [l]).drop (h.length + 1 - 30) := by
  unfold add_history
  split
  · next hc =>
      congr 1
      simp only [List.length_append, List.length_singleton] at hc
      omega
  · next hc =>
      simp only [List.length_append, List.length_singleton] at hc
      have hz : h.length + 1 - 30 = 0 := by omega
      rw [hz, List.drop_zero]

/-- The accumulated history is the suffix of the full sample sequence formed
by the most recent (at most 30) samples, in arrival order. -/
theorem run_history_eq (ls : List Int) : run_history ls = ls.drop (ls.length - 30) := by
  induction ls using List.reverseRecOn with
  | nil => rfl
  | append_singleton ls l ih =>
      have hlen : (run_history ls).length ≤ 30 := by
        rw [ih, List.length_drop]
        omega
      have step : run_history (ls ++ [l]) = add_history (run_history ls) l := by
        simp [run_history, List.foldl_append]
      rw [step, add_history_eq _ _ hlen, ih, List.length_drop]
      rw [← List.drop_append_of_le_length (by omega : ls.length - 30 ≤ ls.length)]
      rw [List.drop_drop]
      congr 1
      simp only [List.length_append, List.length_singleton]
      omega

/-! ## Claims -/

/-- C3: every one of the eight provider extractors maps any exception raised
during the check (modelled as `Except.error ()`) to `unavailable`; since
`Provider.getStatus` is a total function into `Status`, no exception escapes
the extractor boundary. -/
theorem c3_exception_yields_unavailable :
    ∀ p : Provider, p.getStatus (Except.error ()) = Status.unavailable := by
  intro p
  cases p <;> rfl

/-- C4: starting from the empty history, after any finite sequence of
`add_history` calls the history length never exceeds 30, and the retained
content is exactly the most recent at-most-30 samples in arrival order
(the oldest entries are evicted first). -/
theorem c4_history_bound_fifo :
    ∀ ls : List Int,
      (run_history ls).length ≤ 30 ∧ run_history ls = ls.drop (ls.length - 30) := by
  intro ls
  refine ⟨?_, run_history_eq ls⟩
  rw [run_history_eq, List.length_drop]
  omega

/-- C6: one completed scheduler iteration appends exactly one snapshot (the
last element of the new log is the fresh snapshot, and the log grows by at
most one); the log is cleared exactly when the wall-clock hour is 0, the
minute is below 15 and the log size exceeds 90, and is left intact (fresh
snapshot aside) in every other state. -/
theorem c6_scheduler_clear_append :
    ∀ (h m : Nat) (log : List Snapshot) (snap : Snapshot),
      ((h = 0 ∧ m < 15 ∧ 90 < log.length) →
        scheduler_iteration h m log snap = [snap]) ∧
      (¬ (h = 0 ∧ m < 15 ∧ 90 < log.length) →
        scheduler_iteration h m log snap = log ++ [snap]) ∧
      (scheduler_iteration h m log snap).getLast? = some snap ∧
      (scheduler_iteration h m log snap).length ≤ log.length + 1 := by
  intro h m log snap
  refine ⟨?_, ?_, ?_, ?_⟩
  · intro hc
    simp [scheduler_iteration, hc]
  · intro hc
    simp [scheduler_iteration, hc]
  · by_cases hc : h = 0 ∧ m < 15 ∧ 90 < log.length <;>
      simp [scheduler_iteration, hc, List.getLast?_concat]
  · by_cases hc : h = 0 ∧ m < 15 ∧ 90 < log.length <;>
      simp [scheduler_iteration, hc]

/-- C6 witness: in the midnight window with 91 logged snapshots the log is
reset to just the fresh snapshot; at 13:00 with one logged snapshot the log
is extended. -/
theorem c6_scheduler_clear_append_witness :
    scheduler_iteration 0 0 (List.replicate 91 ⟨"00:00", []⟩) ⟨"00:15", []⟩ =
      [⟨"00:15", []⟩] ∧
    scheduler_iteration 13 0 [⟨"12:45", []⟩] ⟨"13:00", []⟩ =
      [⟨"12:45", []⟩, ⟨"13:00", []⟩] := by
  constructor
  · exact (c6_scheduler_clear_append 0 0 _ _).1 (by simp)
  · have := (c6_scheduler_clear_append 13 0 [⟨"12:45", []⟩] ⟨"13:00", []⟩).2.1 (by simp)
    simpa using this

/-- C9: on a fetched HTML body the shared Atlassian/Cloudflare plugin maps a
found status node's first `status-` class to the corresponding severity
(`status-none` to `ok`, `status-critical`/`major`/`minor`/`maintenance` to
the same-named severity), any other or missing `status-` class to
`unavailable`; with no status node the result is `ok` exactly when
"All Systems Operational" occurs in the body, else `unavailable`. -/
theorem c9_status_page_plugin :
    ∀ page : HtmlPage,
      (∀ classes st, page.statusNode = some classes →
        classes.find? (fun x => strStartsWith x "status-") = st →
        ((st = some "status-none" → statusPageClassify page = Status.ok) ∧
         (st = some "status-critical" → statusPageClassify page = Status.critical) ∧
         (st = some "status-major" → statusPageClassify page = Status.major) ∧
         (st = some "status-minor" → statusPageClassify page = Status.minor) ∧
         (st = some "status-maintenance" → statusPageClassify page = Status.maintenance) ∧
         (st ∉ [some "status-none", some "status-critical", some "status-major",
                some "status-minor", some "status-maintenance"] →
           statusPageClassify page = Status.unavailable))) ∧
      (page.statusNode = none →
        ((statusPageClassify page = Status.ok ↔
           strContains page.text "All Systems Operational" = true) ∧
         (strContains page.text "All Systems Operational" = false →
           statusPageClassify page = Status.unavailable))) := by
  intro page
  obtain ⟨node, text⟩ := page
  constructor
  · intro classes st hnode hfind
    cases node with
    | none => exact absurd hnode (by simp)
    | some cs =>
        have hcs : cs = classes := by injection hnode
        subst hcs
        refine ⟨?_, ?_, ?_, ?_, ?_, ?_⟩
        · intro h
          simp [statusPageClassify, hfind, h]
        · intro h
          simp [statusPageClassify, hfind, h]
        · intro h
          simp [statusPageClassify, hfind, h]
        · intro h
          simp [statusPageClassify, hfind, h]
        · intro h
          simp [statusPageClassify, hfind, h]
        · intro h
          simp only [List.mem_cons, List.not_mem_nil, or_false, not_or] at h
          obtain ⟨h1, h2, h3, h4, h5⟩ := h
          simp [statusPageClassify, hfind, h1, h2, h3, h4, h5]
  · intro hnode
    cases node with
    | some cs => exact absurd hnode (by simp)
    | none =>
        constructor
        · by_cases hc : strContains text "All Systems Operational" = true <;>
            simp [statusPageClassify, hc]
        · intro hc
          simp [statusPageClassify, hc]

/-- C9 witness: a node classed `status-major` classifies as `major`; a node
with no `status-` class classifies as `unavailable`; a page with no status
node classifies as `ok` with the operational banner and as `unavailable`
without it. -/
theorem c9_status_page_plugin_witness :
    statusPageClassify ⟨some ["page", "status-major"], ""⟩ = Status.major ∧
    statusPageClassify ⟨some ["widget"], ""⟩ = Status.unavailable ∧
    statusPageClassify ⟨none, "x All Systems Operational y"⟩ = Status.ok ∧
    statusPageClassify ⟨none, "Service Degraded"⟩ = Status.unavailable := by
  refine ⟨?_, ?_, ?_, ?_⟩
  · exact ((c9_status_page_plugin ⟨some ["page", "status-major"], ""⟩).1
      ["page", "status-major"] (some "status-major") rfl (by decide)).2.2.1 rfl
  · exact ((c9_status_page_plugin ⟨some ["widget"], ""⟩).1
      ["widget"] none rfl (by decide)).2.2.2.2.2 (by decide)
  · exact ((c9_status_page_plugin ⟨none, "x All Systems Operational y"⟩).2 rfl).1.mpr
      (by decide)
  · exact ((c9_status_page_plugin ⟨none, "Service Degraded"⟩).2 rfl).2 (by decide)

/-- C1 counterexample: the empty body matches none of AWS's or Google
Cloud's positive patterns, and the indicator "outage" matches none of
GitHub's, yet all three extractors return `ok`, not the `unavailable` that
the fail-closed claim requires. -/
theorem c1_fail_closed_counterexample :
    strContains "" "Service is operating normally" = false ∧
    strContains "" "status0.gif" = false ∧
    strContains "" "status1.gif" = false ∧
    strContains "" "status2.gif" = false ∧
    strContains "" "status3.gif" = false ∧
    strContains "" "Available" = false ∧
    strContains "" "No incidents" = false ∧
    some "outage" ∉ [some "none", some "minor", some "major", some "critical",
                     some "maintenance"] ∧
    Provider.getStatus .aws (Except.ok (.htmlBody "")) = Status.ok ∧
    Provider.getStatus .gcloud (Except.ok (.htmlBody "")) = Status.ok ∧
    Provider.getStatus .github (Except.ok (.githubJson (some "outage"))) = Status.ok ∧
    Status.ok ≠ Status.unavailable := by
  decide

/-- C1 amended: the fail-closed default to `unavailable` holds for every
extractor on a raised exception, and for unclassifiable fetched bodies of
the Docker and shared Atlassian/Cloudflare extractors (whether the status
node is absent and the operational banner missing, or the status node is
found with a missing or unknown `status-` class); but an AWS or Google
Cloud body matching none of the listed positive patterns, and a GitHub
indicator outside the five known values, yield `ok` (fall-open), not
`unavailable`. -/
theorem c1_fail_closed_amended :
    (∀ p : Provider, p.getStatus (Except.error ()) = Status.unavailable) ∧
    (∀ t : String,
      strContains t "Service is operating normally" = false →
      strContains t "status0.gif" = false →
      strContains t "status1.gif" = false →
      strContains t "status2.gif" = false →
      strContains t "status3.gif" = false →
      Provider.getStatus .aws (Except.ok (.htmlBody t)) = Status.ok) ∧
    (∀ t : String, Provider.getStatus .gcloud (Except.ok (.htmlBody t)) = Status.ok) ∧
    (∀ ind : Option String,
      ind ∉ [some "none", some "minor", some "major", some "critical",
             some "maintenance"] →
      Provider.getStatus .github (Except.ok (.githubJson ind)) = Status.ok) ∧
    (∀ t : String,
      strContains t "All Systems Operational" = false →
      strContains t "Incident" = false →
      Provider.getStatus .docker (Except.ok (.htmlBody t)) = Status.unavailable) ∧
    (∀ t : String,
      strContains t "All Systems Operational" = false →
      Provider.getStatus .atlassian (Except.ok (.htmlPage ⟨none, t⟩)) = Status.unavailable ∧
      Provider.getStatus .cloudflare (Except.ok (.htmlPage ⟨none, t⟩)) = Status.unavailable) ∧
    (∀ (classes : List String) (t : String) (st : Option String),
      classes.find? (fun x => strStartsWith x "status-") = st →
      st ∉ [some "status-none", some "status-critical", some "status-major",
            some "status-minor", some "status-maintenance"] →
      Provider.getStatus .atlassian
          (Except.ok (.htmlPage ⟨some classes, t⟩)) = Status.unavailable ∧
      Provider.getStatus .cloudflare
          (Except.ok (.htmlPage ⟨some classes, t⟩)) = Status.unavailable) := by
  refine ⟨?_, ?_, ?_, ?_, ?_, ?_, ?_⟩
  · intro p
    cases p <;> rfl
  · intro t h0 h1 h2 h3 h4
    simp [Provider.getStatus, awsClassify, h0, h1, h2, h3, h4]
  · intro t
    simp only [Provider.getStatus, gcloudClassify]
    split <;> rfl
  · intro ind h
    simp only [List.mem_cons, List.not_mem_nil, or_false, not_or] at h
    obtain ⟨h1, h2, h3, h4, h5⟩ := h
    simp [Provider.getStatus, githubClassify, h1, h2, h3, h4, h5]
  · intro t h1 h2
    simp [Provider.getStatus, dockerClassify, h1, h2]
  · intro t h1
    constructor <;> simp [Provider.getStatus, statusPageClassify, h1]
  · intro classes t st hfind hmem
    simp only [List.mem_cons, List.not_mem_nil, or_false, not_or] at hmem
    obtain ⟨h1, h2, h3, h4, h5⟩ := hmem
    constructor <;>
      simp [Provider.getStatus, statusPageClassify, hfind, h1, h2, h3, h4, h5]

/-- C1 amended witness: concrete instances of the amended statement at the
empty body, the indicator "outage", a page with no status node and a status
node with no `status-` class. -/
theorem c1_fail_closed_amended_witness :
    Provider.getStatus .aws (Except.ok (.htmlBody "")) = Status.ok ∧
    Provider.getStatus .github (Except.ok (.githubJson (some "outage"))) = Status.ok ∧
    Provider.getStatus .docker (Except.ok (.htmlBody "")) = Status.unavailable ∧
    Provider.getStatus .atlassian (Except.ok (.htmlPage ⟨none, ""⟩)) = Status.unavailable ∧
    Provider.getStatus .atlassian
        (Except.ok (.htmlPage ⟨some ["widget"], ""⟩)) = Status.unavailable ∧
    Provider.getStatus .cloudflare
        (Except.ok (.htmlPage ⟨some ["page", "status-weird"], ""⟩)) = Status.unavailable := by
  refine ⟨?_, ?_, ?_, ?_, ?_, ?_⟩
  · exact c1_fail_closed_amended.2.1 "" (by decide) (by decide) (by decide) (by decide) (by decide)
  · exact c1_fail_closed_amended.2.2.2.1 (some "outage") (by decide)
  · exact c1_fail_closed_amended.2.2.2.2.1 "" (by decide) (by decide)
  · exact (c1_fail_closed_amended.2.2.2.2.2.1 "" (by decide)).1
  · exact (c1_fail_closed_amended.2.2.2.2.2.2 ["widget"] "" none (by decide) (by decide)).1
  · exact (c1_fail_closed_amended.2.2.2.2.2.2 ["page", "status-weird"] ""
      (some "status-weird") (by decide) (by decide)).2

/-- Incidents whose (lowercased) type is neither `incident` nor
`maintenance` are skipped by the scan loop. -/
theorem slackScan_skip_neutral :
    ∀ (pre : List SlackIncident) (rest : List SlackIncident),
      (∀ j ∈ pre, j.effType ≠ "incident" ∧ j.effType ≠ "maintenance") →
      slackScan (pre ++ rest) = slackScan rest := by
  intro pre
  induction pre with
  | nil => intro rest _; rfl
  | cons j pre ih =>
      intro rest h
      have hj := h j (by simp)
      simp only [List.cons_append, slackScan, hj.1, hj.2, if_false]
      exact ih rest (fun k hk => h k (by simp [hk]))

/-- A scan over only neutral-typed incidents returns `minor`. -/
theorem slackScan_all_neutral :
    ∀ l : List SlackIncident,
      (∀ j ∈ l, j.effType ≠ "incident" ∧ j.effType ≠ "maintenance") →
      slackScan l = Status.minor := by
  intro l h
  have := slackScan_skip_neutral l [] h
  simpa using this

/-- C2 counterexample: with top-level status "active" and the incident list
`[maintenance, incident]`, the list does contain an incident of type
`incident`, so the claim requires `major`; the code scans in order and
returns `maintenance` at the first element. -/
theorem c2_slack_counterexample :
    (∃ i ∈ ([⟨some "maintenance"⟩, ⟨some "incident"⟩] : List SlackIncident),
       i.effType = "incident") ∧
    Provider.getStatus .slack
        (Except.ok (.slackJson ⟨some "active",
          [⟨some "maintenance"⟩, ⟨some "incident"⟩]⟩)) = Status.maintenance ∧
    Status.maintenance ≠ Status.major := by
  refine ⟨⟨⟨some "incident"⟩, by decide, by decide⟩, by decide, by decide⟩

/-- C2 amended: on a successfully decoded JSON body, status "ok" gives `ok`
and an empty incident list gives `ok`; otherwise the incidents are scanned
in order and the FIRST incident whose lowercased type is `incident` or
`maintenance` decides the result (`major` respectively `maintenance`),
regardless of later incidents; if no incident has either type the result is
`minor`. -/
theorem c2_slack_amended :
    ∀ d : SlackData,
      (d.status = some "ok" →
        Provider.getStatus .slack (Except.ok (.slackJson d)) = Status.ok) ∧
      (d.status ≠ some "ok" → d.activeIncidents = [] →
        Provider.getStatus .slack (Except.ok (.slackJson d)) = Status.ok) ∧
      (∀ pre i rest,
        d.status ≠ some "ok" →
        d.activeIncidents = pre ++ i :: rest →
        (∀ j ∈ pre, j.effType ≠ "incident" ∧ j.effType ≠ "maintenance") →
        ((i.effType = "incident" →
           Provider.getStatus .slack (Except.ok (.slackJson d)) = Status.major) ∧
         (i.effType ≠ "incident" → i.effType = "maintenance" →
           Provider.getStatus .slack (Except.ok (.slackJson d)) = Status.maintenance))) ∧
      (d.status ≠ some "ok" → d.activeIncidents ≠ [] →
        (∀ j ∈ d.activeIncidents, j.effType ≠ "incident" ∧ j.effType ≠ "maintenance") →
        Provider.getStatus .slack (Except.ok (.slackJson d)) = Status.minor) := by
  intro d
  refine ⟨?_, ?_, ?_, ?_⟩
  · intro h
    simp [Provider.getStatus, slackClassify, h]
  · intro h he
    simp [Provider.getStatus, slackClassify, h, he]
  · intro pre i rest hst hsplit hpre
    have hscan : slackScan (pre ++ i :: rest) = slackScan (i :: rest) :=
      slackScan_skip_neutral pre (i :: rest) hpre
    have hne : (pre ++ i :: rest).isEmpty = false := by
      cases pre <;> rfl
    constructor
    · intro hty
      simp [Provider.getStatus, slackClassify, hst, hsplit, hne, hscan, slackScan, hty]
    · intro hty1 hty2
      simp [Provider.getStatus, slackClassify, hst, hsplit, hne, hscan, slackScan, hty1, hty2]
  · intro hst hne hall
    have hscan := slackScan_all_neutral d.activeIncidents hall
    have hne2 : d.activeIncidents.isEmpty = false := by
      cases hh : d.activeIncidents with
      | nil => exact absurd hh hne
      | cons a as => rfl
    simp [Provider.getStatus, slackClassify, hst, hne2, hscan]

/-- C2 amended witness: concrete instances — status "ok"; empty list; the
list `[maintenance, incident]` giving `maintenance`; a neutral list giving
`minor`. -/
theorem c2_slack_amended_witness :
    Provider.getStatus .slack (Except.ok (.slackJson ⟨some "ok", []⟩)) = Status.ok ∧
    Provider.getStatus .slack (Except.ok (.slackJson ⟨some "active", []⟩)) = Status.ok ∧
    Provider.getStatus .slack
        (Except.ok (.slackJson ⟨some "active",
          [⟨some "maintenance"⟩, ⟨some "incident"⟩]⟩)) = Status.maintenance ∧
    Provider.getStatus .slack
        (Except.ok (.slackJson ⟨some "active", [⟨some "notice"⟩]⟩)) = Status.minor := by
  refine ⟨?_, ?_, ?_, ?_⟩
  · exact (c2_slack_amended ⟨some "ok", []⟩).1 rfl
  · exact (c2_slack_amended ⟨some "active", []⟩).2.1 (by decide) rfl
  · exact (((c2_slack_amended ⟨some "active",
      [⟨some "maintenance"⟩, ⟨some "incident"⟩]⟩).2.2.1
      [] ⟨some "maintenance"⟩ [⟨some "incident"⟩]
      (by decide) rfl (by simp)).2 (by decide) (by decide))
  · exact (c2_slack_amended ⟨some "active", [⟨some "notice"⟩]⟩).2.2.2
      (by decide) (by decide) (by decide)

/-- The Slack scan loop only produces `major`, `maintenance` or `minor`. -/
theorem slackScan_ne_critical :
    ∀ l : List SlackIncident, slackScan l ≠ Status.critical := by
  intro l
  induction l with
  | nil => simp [slackScan]
  | cons i rest ih =>
      simp only [slackScan]
      split
      · simp
      · split
        · simp
        · exact ih

/-- C5 counterexample: the Google Cloud extractor can never return
`critical` on any input — both of its decision branches return `ok` and the
exception path returns `unavailable` — so the claimed "critical incident
fixture" cannot exist for it. -/
theorem c5_fixture_counterexample :
    ¬ ∃ r : Except Unit ProviderResponse,
        Provider.getStatus .gcloud r = Status.critical := by
  rintro ⟨r, hr⟩
  cases r with
  | error e => exact absurd hr (by cases e; decide)
  | ok resp =>
      cases resp with
      | htmlBody t =>
          rw [show Provider.getStatus .gcloud (Except.ok (.htmlBody t)) =
                gcloudClassify t from rfl] at hr
          unfold gcloudClassify at hr
          revert hr
          split <;> decide
      | htmlPage page => exact absurd hr (by simp [Provider.getStatus])
      | azurePage page => exact absurd hr (by simp [Provider.getStatus])
      | githubJson ind => exact absurd hr (by simp [Provider.getStatus])
      | slackJson d => exact absurd hr (by simp [Provider.getStatus])

/-- C5 amended: every provider's extractor returns `ok` on some input, and
the AWS, Azure, GitHub, Atlassian and Cloudflare extractors return
`critical` on some input; but the Google Cloud, Slack and Docker extractors
can never return `critical` on any input (their ranges exclude it). -/
theorem c5_fixtures_amended :
    (∀ p : Provider, ∃ r, p.getStatus r = Status.ok) ∧
    (∃ r, Provider.getStatus .aws r = Status.critical) ∧
    (∃ r, Provider.getStatus .azure r = Status.critical) ∧
    (∃ r, Provider.getStatus .github r = Status.critical) ∧
    (∃ r, Provider.getStatus .atlassian r = Status.critical) ∧
    (∃ r, Provider.getStatus .cloudflare r = Status.critical) ∧
    (∀ r, Provider.getStatus .gcloud r ≠ Status.critical) ∧
    (∀ r, Provider.getStatus .slack r ≠ Status.critical) ∧
    (∀ r, Provider.getStatus .docker r ≠ Status.critical) := by
  refine ⟨?_, ?_, ?_, ?_, ?_, ?_, ?_, ?_, ?_⟩
  · intro p
    cases p with
    | aws => exact ⟨Except.ok (.htmlBody "Service is operating normally"), by decide⟩
    | gcloud => exact ⟨Except.ok (.htmlBody "No incidents"), by decide⟩
    | github => exact ⟨Except.ok (.githubJson (some "none")), by decide⟩
    | azure => exact ⟨Except.ok (.azurePage ⟨"all good", ""⟩), by decide⟩
    | atlassian => exact ⟨Except.ok (.htmlPage ⟨some ["status-none"], ""⟩), by decide⟩
    | cloudflare => exact ⟨Except.ok (.htmlPage ⟨some ["status-none"], ""⟩), by decide⟩
    | slack => exact ⟨Except.ok (.slackJson ⟨some "ok", []⟩), by decide⟩
    | docker => exact ⟨Except.ok (.htmlBody "All Systems Operational"), by decide⟩
  · exact ⟨Except.ok (.htmlBody "status3.gif"), by decide⟩
  · exact ⟨Except.ok (.azurePage ⟨"outage", "health-error"⟩), by decide⟩
  · exact ⟨Except.ok (.githubJson (some "critical")), by decide⟩
  · exact ⟨Except.ok (.htmlPage ⟨some ["status-critical"], ""⟩), by decide⟩
  · exact ⟨Except.ok (.htmlPage ⟨some ["status-critical"], ""⟩), by decide⟩
  · intro r
    cases r with
    | error e => cases e; decide
    | ok resp =>
        cases resp with
        | htmlBody t =>
            show gcloudClassify t ≠ Status.critical
            unfold gcloudClassify
            split <;> decide
        | htmlPage page => simp [Provider.getStatus]
        | azurePage page => simp [Provider.getStatus]
        | githubJson ind => simp [Provider.getStatus]
        | slackJson d => simp [Provider.getStatus]
  · intro r
    cases r with
    | error e => cases e; decide
    | ok resp =>
        cases resp with
        | slackJson d =>
            show slackClassify d ≠ Status.critical
            unfold slackClassify
            split
            · decide
            · split
              · decide
              · exact slackScan_ne_critical d.activeIncidents
        | htmlBody t => simp [Provider.getStatus]
        | htmlPage page => simp [Provider.getStatus]
        | azurePage page => simp [Provider.getStatus]
        | githubJson ind => simp [Provider.getStatus]
  · intro r
    cases r with
    | error e => cases e; decide
    | ok resp =>
        cases resp with
        | htmlBody t =>
            show dockerClassify t ≠ Status.critical
            unfold dockerClassify
            split
            · decide
            · split <;> decide
        | htmlPage page => simp [Provider.getStatus]
        | azurePage page => simp [Provider.getStatus]
        | githubJson ind => simp [Provider.getStatus]
        | slackJson d => simp [Provider.getStatus]

/-- C7: for any outcomes of the individual provider checks, the index
route's result list has exactly one entry per configured provider (eight
entries, whose names are a permutation of the distinct provider names), and
a failed check is not dropped: it contributes an entry with severity
`unavailable`. -/
theorem c7_aggregator_complete :
    ∀ env : Provider → Except Unit ProviderResponse,
      (indexResults env).length = 8 ∧
      ((indexResults env).map CheckResult.name).Perm (SERVICES.map Provider.name) ∧
      (SERVICES.map Provider.name).Nodup ∧
      (∀ p : Provider, env p = Except.error () →
        ({ name := p.name, url := p.statusUrl, status := Status.unavailable } : CheckResult)
          ∈ indexResults env) := by
  intro env
  have hperm : (indexResults env).Perm (aggregate env) :=
    List.perm_insertionSort nameLE (aggregate env)
  refine ⟨?_, ?_, ?_, ?_⟩
  · rw [hperm.length_eq]
    simp [aggregate, SERVICES]
  · have hmap : (aggregate env).map CheckResult.name = SERVICES.map Provider.name := by
      simp [aggregate, check_single_service]
    exact hmap ▸ hperm.map CheckResult.name
  · decide
  · intro p hp
    have hmem : ({ name := p.name, url := p.statusUrl, status := Status.unavailable } :
        CheckResult) ∈ aggregate env := by
      have hpin : p ∈ SERVICES := by cases p <;> decide
      have : check_single_service p (env p) =
          { name := p.name, url := p.statusUrl, status := Status.unavailable } := by
        rw [check_single_service, hp]
        rfl
      exact this ▸ List.mem_map_of_mem (fun q => check_single_service q (env q)) hpin
    exact hperm.mem_iff.mpr hmem

/-- C7 witness: with every fetch failing, the index list still has eight
entries and contains the Slack entry with severity `unavailable`. -/
theorem c7_aggregator_complete_witness :
    (indexResults (fun _ => Except.error ())).length = 8 ∧
    ({ name := "Slack", url := "https://status.slack.com/",
       status := Status.unavailable } : CheckResult)
      ∈ indexResults (fun _ => Except.error ()) := by
  constructor
  · exact (c7_aggregator_complete (fun _ => Except.error ())).1
  · exact (c7_aggregator_complete (fun _ => Except.error ())).2.2.2 Provider.slack rfl

/-- C10: the dispatch `Provider.getStatus` is a total function whose value
is always one of the six severities, so the scheduler's `except` fallback
recording "UNKNOWN" is unreachable: every snapshot maps each provider name
to the uppercase name of one of the six severities and never to "UNKNOWN". -/
theorem c10_snapshot_totality :
    (∀ (p : Provider) (r : Except Unit ProviderResponse),
      p.getStatus r ∈ [Status.ok, Status.maintenance, Status.minor,
                       Status.major, Status.critical, Status.unavailable]) ∧
    (∀ (ts : String) (env : Provider → Except Unit ProviderResponse),
      (make_snapshot ts env).services.map Prod.fst = SERVICES.map Provider.name ∧
      (∀ pair ∈ (make_snapshot ts env).services,
        pair.2 ∈ ["OK", "MAINTENANCE", "MINOR", "MAJOR", "CRITICAL", "UNAVAILABLE"] ∧
        pair.2 ≠ "UNKNOWN")) := by
  constructor
  · intro p r
    cases hs : p.getStatus r <;> simp
  · intro ts env
    constructor
    · simp [make_snapshot]
    · intro pair hp
      simp only [make_snapshot, List.mem_map] at hp
      obtain ⟨p, hpin, hpair⟩ := hp
      subst hpair
      cases hs : p.getStatus (env p) <;> simp [statusUpperName, hs]

/-- C10 witness: with every fetch failing, the snapshot's Slack entry is
"UNAVAILABLE", one of the six uppercase severity names, not "UNKNOWN". -/
theorem c10_snapshot_totality_witness :
    (("Slack", "UNAVAILABLE") : String × String).2
        ∈ ["OK", "MAINTENANCE", "MINOR", "MAJOR", "CRITICAL", "UNAVAILABLE"] ∧
    (("Slack", "UNAVAILABLE") : String × String).2 ≠ "UNKNOWN" := by
  exact (c10_snapshot_totality.2 "00:00" (fun _ => Except.error ())).2
    ("Slack", "UNAVAILABLE") (by decide)

/-- C8: the monitoring view's list is a permutation of the aggregate sorted
by the priority-then-name order, where the priority ranks run
critical before major before minor before unavailable before maintenance
before ok; the index and export views are permutations of the aggregate
sorted by display name alone. -/
theorem c8_view_sorting :
    ∀ env : Provider → Except Unit ProviderResponse,
      List.Sorted monLE (monitoringResults env) ∧
      (monitoringResults env).Perm (aggregate env) ∧
      List.Sorted nameLE (indexResults env) ∧
      (indexResults env).Perm (aggregate env) ∧
      List.Sorted nameLE (exportResults env) ∧
      (exportResults env).Perm (aggregate env) ∧
      sort_map Status.critical < sort_map Status.major ∧
      sort_map Status.major < sort_map Status.minor ∧
      sort_map Status.minor < sort_map Status.unavailable ∧
      sort_map Status.unavailable < sort_map Status.maintenance ∧
      sort_map Status.maintenance < sort_map Status.ok := by
  intro env
  exact ⟨List.sorted_insertionSort monLE (aggregate env),
         List.perm_insertionSort monLE (aggregate env),
         List.sorted_insertionSort nameLE (aggregate env),
         List.perm_insertionSort nameLE (aggregate env),
         List.sorted_insertionSort nameLE (aggregate env),
         List.perm_insertionSort nameLE (aggregate env),
         by decide, by decide, by decide, by decide, by decide⟩

/-- C5 amended witness: concrete instances — Google Cloud on an arbitrary
body, Slack on an incident list and Docker on an unmatched body are all not
`critical`. -/
theorem c5_fixtures_amended_witness :
    Provider.getStatus .gcloud (Except.ok (.htmlBody "down")) ≠ Status.critical ∧
    Provider.getStatus .slack
        (Except.ok (.slackJson ⟨some "active", [⟨some "incident"⟩]⟩)) ≠ Status.critical ∧
    Provider.getStatus .docker (Except.ok (.htmlBody "zzz")) ≠ Status.critical := by
  exact ⟨c5_fixtures_amended.2.2.2.2.2.2.1 _,
         c5_fixtures_amended.2.2.2.2.2.2.2.1 _,
         c5_fixtures_amended.2.2.2.2.2.2.2.2 _⟩
